import Mathlib

/-!
Verification of the TODOIT session/timer core against its source.

Shallow embedding of:
- `src/helpers/googleTasksApi.ts` (`tasksFetch` and the five CRUD wrappers)
- `src/hooks/useToggleComplete.ts` (optimistic toggle: `onMutate` / `onError`)
- the timer provider (`setTimer` / `clearTimer` / snapshot / `makeTimeObject`)
- `src/Components/StartButton.jsx` (`finishSession`, the `handledTimerEndRef`
  one-shot latch and its effects)
- `Components/Task.tsx` (highlight guard: `disabled`, `canShowCheckbox`,
  `canToggleCompletion`, `handleCheckToggle`)
- the session-summary provider (`tasksCompleted` accumulator) and the
  `Accomplishment` component's two dismissal handlers.
-/

namespace Todoit

/-- Task status, `'needsAction' | 'completed'` in `googleTasksApi.ts`. -/
inductive GStatus where
  | needsAction
  | completed
deriving DecidableEq, Repr

/-- A Google Task item (`GTask` in `googleTasksApi.ts`): id, title, status and
optional notes/due/updated/completed fields. -/
structure GTask where
  id : String
  title : String
  status : GStatus
  notes : Option String
  due : Option String
  updated : Option String
  completedAt : Option String
deriving DecidableEq, Repr

/-- The cached task collection for one `('tasks', listId)` cache key:
`undefined` (no entry) or a list of tasks. -/
abbrev TaskCache := Option (List GTask)

/-- `completed ? 'completed' : 'needsAction'` as it appears in the mutation. -/
def toggleStatus (completed : Bool) : GStatus :=
  if completed then GStatus.completed else GStatus.needsAction

/-- The optimistic updater passed to `setQueryData` in `onMutate`
(`useToggleComplete.ts` lines 37-43):
`old.map(t => t.id === taskId ? { ...t, status } : t)`. -/
def optimisticToggle (taskId : String) (completed : Bool)
    (old : List GTask) : List GTask :=
  old.map fun t =>
    if t.id = taskId then { t with status := toggleStatus completed } else t

/-- The mutation context returned by `onMutate`: the snapshot of the previous
cached collection (possibly `undefined`). -/
structure ToggleCtx where
  prev : TaskCache
deriving DecidableEq, Repr

/-- `onMutate`: snapshot the current cache entry, then install the optimistic
collection.  `setQueryData` with updater `(old = []) => old.map(...)` defaults
a missing entry to `[]`, so the written entry is always present.
Returns (cache after the optimistic write, context). -/
def onMutate (cache : TaskCache) (taskId : String) (completed : Bool) :
    TaskCache × ToggleCtx :=
  (some (optimisticToggle taskId completed (cache.getD [])), ⟨cache⟩)

/-- `onError`: `if (ctx?.prev) setQueryData(key, ctx.prev)`.  A present array
(even the empty one, which is truthy in JS) is restored; an `undefined`
snapshot skips the rollback. -/
def onError (cache : TaskCache) (ctx : ToggleCtx) : TaskCache :=
  match ctx.prev with
  | some prev => some prev
  | none => cache

/-! ## Timer engine (timer provider: `setTimer`, `clearTimer`, snapshot) -/

/-- `TimeObject`: raw milliseconds plus display-clamped minutes/seconds and
the `MM:SS` string. -/
structure TimeObject where
  ms : Int
  minutes : Nat
  seconds : Nat
  timeString : String
deriving DecidableEq, Repr

/-- `formatTime(minutes, seconds)`: zero-pads each component below 10. -/
def formatTime (minutes seconds : Nat) : String :=
  (if minutes < 10 then "0" ++ toString minutes else toString minutes)
    ++ ":"
    ++ (if seconds < 10 then "0" ++ toString seconds else toString seconds)

/-- `makeTimeObject(ms)`: `safeMs = Math.max(0, ms)`; minutes and seconds are
floored from `safeMs`, while the stored `ms` field keeps the raw value. -/
def makeTimeObject (ms : Int) : TimeObject :=
  let safeMs : Nat := (max 0 ms).toNat
  let minutes : Nat := safeMs / 60000
  let seconds : Nat := (safeMs % 60000) / 1000
  { ms := ms
    minutes := minutes
    seconds := seconds
    timeString := formatTime minutes seconds }

/-- `TimerSnapshot`: `{ elapsed, remaining }`. -/
structure TimerSnapshot where
  elapsed : TimeObject
  remaining : TimeObject
deriving DecidableEq, Repr

/-- The snapshot memo in the timer provider:
`remainingMs = targetTime == null ? -1 : targetTime - nowMs`,
`elapsedMs = startTime == null ? -1 : nowMs - startTime`. -/
def timerSnapshot (startTime targetTime : Option Int) (nowMs : Int) :
    TimerSnapshot :=
  let remainingMs : Int :=
    match targetTime with
    | none => -1
    | some target => target - nowMs
  let elapsedMs : Int :=
    match startTime with
    | none => -1
    | some start => nowMs - start
  { remaining := makeTimeObject remainingMs
    elapsed := makeTimeObject elapsedMs }

/-- The timer provider's state: `startTime`, `targetTime`, `timerActive`,
`durationInMs` and the provider-owned clock `nowMs`. -/
structure TimerState where
  startTime : Option Int
  targetTime : Option Int
  timerActive : Bool
  durationInMs : Int
  nowMs : Int
deriving DecidableEq, Repr

/-- The provider's initial state: no start/target, inactive, 25-minute
default duration. -/
def initialTimerState (now : Int) : TimerState :=
  { startTime := none
    targetTime := none
    timerActive := false
    durationInMs := 25 * 60 * 1000
    nowMs := now }

/-- `setTimer()`: `start = new Date(msNow)`, `target = new Date(msNow +
durationInMs)`, sets both, marks active, refreshes the clock.  (The
notification scheduling side effect is external and non-fatal.) -/
def setTimer (s : TimerState) (msNow : Int) : TimerState :=
  { s with
    startTime := some msNow
    targetTime := some (msNow + s.durationInMs)
    timerActive := true
    nowMs := msNow }

/-- `clearTimer()`: unsets both timestamps, marks inactive, refreshes the
clock.  (Cancelling the scheduled notification is external.) -/
def clearTimer (s : TimerState) (msNow : Int) : TimerState :=
  { s with
    startTime := none
    targetTime := none
    timerActive := false
    nowMs := msNow }

/-- The TimerState invariant of the spec: `active` iff both timestamps set. -/
def timerInvariant (s : TimerState) : Prop :=
  s.timerActive = true ↔ (s.startTime.isSome = true ∧ s.targetTime.isSome = true)

/-! ## Session phase (`useStatus.tsx` / `state/session.ts`) -/

/-- `SessionPhase`: `IDLE`, `RUNNING { highlightedTaskId }`, or
`ACCOMPLISHMENT`. -/
inductive SessionPhase where
  | IDLE
  | RUNNING (highlightedTaskId : Option String)
  | ACCOMPLISHMENT
deriving DecidableEq, Repr

/-! ## StartButton (`src/Components/StartButton.jsx`) -/

/-- The mutable state `finishSession` reads and writes: session phase, timer
provider state, and the session-summary values. -/
structure AppState where
  status : SessionPhase
  timerState : TimerState
  tasksCompleted : Nat
  completedTimeString : String
deriving DecidableEq, Repr

/-- `finishSession` (StartButton lines 56-74): destructure
`timer.elapsed.timeString` from the current snapshot, `clearTimer()`, then
branch on `tasksCompleted > 0`: accomplishment (recording the time string)
or idle. -/
def finishSession (s : AppState) : AppState :=
  let timeString :=
    (timerSnapshot s.timerState.startTime s.timerState.targetTime
      s.timerState.nowMs).elapsed.timeString
  let cleared := { s with timerState := clearTimer s.timerState s.timerState.nowMs }
  if s.tasksCompleted > 0 then
    { cleared with
      completedTimeString := timeString
      status := SessionPhase.ACCOMPLISHMENT }
  else
    { cleared with status := SessionPhase.IDLE }

/-- One observation fed to the StartButton effects: whether the timer is
active and the raw remaining milliseconds of the current snapshot. -/
structure Check where
  active : Bool
  remainingMs : Int
deriving DecidableEq, Repr

/-- The reset effect (StartButton lines 124-128): whenever the timer is not
active, `handledTimerEndRef.current = false`; otherwise the latch is kept. -/
def resetLatchEffect (handled : Bool) (c : Check) : Bool :=
  if c.active then handled else false

/-- The timer-completion effect (StartButton lines 131-153): early-return
when inactive, when `remaining.ms > 0`, or when the latch is already set;
otherwise set the latch and fire the session-end transition.
Returns (latch after, fired?). -/
def completionEffect (handled : Bool) (c : Check) : Bool × Bool :=
  if c.active = false then (handled, false)
  else if c.remainingMs > 0 then (handled, false)
  else if handled then (handled, false)
  else (true, true)

/-- One render cycle runs the reset effect, then the completion effect (their
declaration order in the file). -/
def renderCycle (handled : Bool) (c : Check) : Bool × Bool :=
  completionEffect (resetLatchEffect handled c) c

/-- Total number of session-end firings over a sequence of checks, threading
the latch through the render cycles. -/
def countFires (handled : Bool) : List Check → Nat
  | [] => 0
  | c :: cs =>
    let r := renderCycle handled c
    (if r.2 then 1 else 0) + countFires r.1 cs

/-- `handleStartPress` on an inactive timer arms the latch:
`handledTimerEndRef.current = false` before `setTimer()`.  On an active timer
the latch is untouched (the press only opens the end-session prompt). -/
def startPressLatch (timerActive : Bool) (handled : Bool) : Bool :=
  if timerActive = false then false else handled

/-! ## Task component guard (`Components/Task.tsx`) -/

/-- `disabled`: `RUNNING && highlightedTaskId !== null &&
highlightedTaskId !== id`. -/
def taskDisabled (status : SessionPhase) (id : String) : Bool :=
  match status with
  | SessionPhase.RUNNING hid => hid.isSome && hid ≠ some id
  | _ => false

/-- `canShowCheckbox`: `RUNNING && (highlightedTaskId === null ||
highlightedTaskId === id)`. -/
def canShowCheckbox (status : SessionPhase) (id : String) : Bool :=
  match status with
  | SessionPhase.RUNNING hid => hid = none || hid = some id
  | _ => false

/-- `canToggleCompletion`: `canShowCheckbox && !disabled && !isPending`. -/
def canToggleCompletion (status : SessionPhase) (id : String)
    (isPending : Bool) : Bool :=
  canShowCheckbox status id && !taskDisabled status id && !isPending

/-- The mutation request `toggleComplete.mutate` would receive. -/
structure ToggleRequest where
  taskId : String
  completed : Bool
deriving DecidableEq, Repr

/-- `handleCheckToggle`: `if (!canToggleCompletion) return;` then
`toggleComplete.mutate({ taskId: id, completed: nextChecked })`.
Returns the issued request, or `none` when the guard blocks. -/
def handleCheckToggle (status : SessionPhase) (id : String)
    (isPending : Bool) (nextChecked : Bool) : Option ToggleRequest :=
  if canToggleCompletion status id isPending then
    some { taskId := id, completed := nextChecked }
  else
    none

/-- A check-toggle step seen from the cache: when the guard blocks, no
mutation runs, so neither the optimistic cache write nor the network patch
happens.  Returns (cache after, network request issued?). -/
def taskCheckStep (status : SessionPhase) (id : String) (isPending : Bool)
    (nextChecked : Bool) (cache : TaskCache) : TaskCache × Bool :=
  match handleCheckToggle status id isPending nextChecked with
  | none => (cache, false)
  | some req => ((onMutate cache req.taskId req.completed).1, true)

/-- The "End Session" choice of `createCancelAlert` in the Task component
(shown when the highlighted task's checkbox is checked): its `onPress` runs
`setStatus({ status: IDLE })` and nothing else — it does not consult
`tasksCompleted`, does not write `completedTimeString`, and does not clear
the timer. -/
def taskPromptEndSession (s : AppState) : AppState :=
  { s with status := SessionPhase.IDLE }

/-- The "Continue With Other Tasks" choice of the same alert:
`setStatus({ status: RUNNING, highlightedTaskId: null })`. -/
def taskPromptContinue (s : AppState) : AppState :=
  { s with status := SessionPhase.RUNNING none }

/-! ## Session summary accumulator and Accomplishment dismissal -/

/-- The session-state provider's values: `tasksCompleted` and
`completedTimeString`. -/
structure SessionSummaryState where
  tasksCompleted : Nat
  completedTimeString : String
deriving DecidableEq, Repr

/-- `incrementTasksCompleted(inc = 1)`: adds `inc` (call sites pass no
argument, i.e. 1). -/
def incrementTasksCompleted (s : SessionSummaryState) (inc : Nat) :
    SessionSummaryState :=
  { s with tasksCompleted := s.tasksCompleted + inc }

/-- `resetTasksCompleted()`: sets the count to 0. -/
def resetTasksCompleted (s : SessionSummaryState) : SessionSummaryState :=
  { s with tasksCompleted := 0 }

/-- The state the `Accomplishment` component manipulates. -/
structure AccomplishmentModel where
  status : SessionPhase
  summary : SessionSummaryState
deriving DecidableEq, Repr

/-- `handleClose` (the LET'S GO button): `resetTasksCompleted()` then
`setStatus({ status: IDLE })`. -/
def handleClose (s : AccomplishmentModel) : AccomplishmentModel :=
  { s with
    summary := resetTasksCompleted s.summary
    status := SessionPhase.IDLE }

/-- The modal's `onRequestClose` (system back): `setStatus({ status: IDLE })`
only — the summary is left untouched. -/
def onRequestClose (s : AccomplishmentModel) : AccomplishmentModel :=
  { s with status := SessionPhase.IDLE }

/-! ## Remote task store client (`src/helpers/googleTasksApi.ts`) -/

/-- The part of a `fetch` response `tasksFetch` inspects: the HTTP status
code and the body text. -/
structure HttpResponse where
  status : Nat
  body : String
deriving DecidableEq, Repr

/-- `res.ok` per the fetch specification: status in the range 200-299. -/
def respOk (r : HttpResponse) : Bool :=
  200 ≤ r.status && r.status ≤ 299

/-- The message of the error thrown on a non-2xx response:
"Google Tasks API \x7bstatus\x7d: \x7btext\x7d". -/
def apiErrorMessage (status : Nat) (body : String) : String :=
  "Google Tasks API " ++ toString status ++ ": " ++ body

/-- `tasksFetch`: read the body text once; throw the readable error on
non-2xx; return `undefined` on an empty body; otherwise `JSON.parse` the
text (the parser is the JS builtin, passed here as a function). -/
def tasksFetch (r : HttpResponse) (parseJson : String → α) :
    Except String (Option α) :=
  if respOk r = false then Except.error (apiErrorMessage r.status r.body)
  else if r.body = "" then Except.ok none
  else Except.ok (some (parseJson r.body))

/-- `listTaskLists`: GET `/users/@me/lists`, delegating to `tasksFetch`. -/
def listTaskLists (r : HttpResponse) (parseJson : String → α) :
    Except String (Option α) :=
  tasksFetch r parseJson

/-- `listTasks`: GET `/lists/{id}/tasks`, delegating to `tasksFetch`. -/
def listTasks (r : HttpResponse) (parseJson : String → α) :
    Except String (Option α) :=
  tasksFetch r parseJson

/-- `addTask`: POST `/lists/{id}/tasks`, delegating to `tasksFetch`. -/
def addTask (r : HttpResponse) (parseJson : String → α) :
    Except String (Option α) :=
  tasksFetch r parseJson

/-- `patchTask`: PATCH `/lists/{id}/tasks/{taskId}`, delegating to
`tasksFetch`. -/
def patchTask (r : HttpResponse) (parseJson : String → α) :
    Except String (Option α) :=
  tasksFetch r parseJson

/-- `deleteTask`: DELETE `/lists/{id}/tasks/{taskId}`, delegating to
`tasksFetch` (result discarded). -/
def deleteTask (r : HttpResponse) (parseJson : String → α) :
    Except String (Option α) :=
  tasksFetch r parseJson

/-! ## Sample data for concrete witnesses -/

/-- A sample task in status `needsAction`. -/
def sampleTaskA : GTask :=
  { id := "a1", title := "write spec", status := GStatus.needsAction,
    notes := none, due := none, updated := none, completedAt := none }

/-- A second sample task with a different id. -/
def sampleTaskB : GTask :=
  { id := "b2", title := "other", status := GStatus.needsAction,
    notes := some "note", due := none, updated := none, completedAt := none }

/-- A sample active timer: 60-second session started at 0, clock at 5000. -/
def sampleTimer : TimerState :=
  { startTime := some 0, targetTime := some 60000, timerActive := true,
    durationInMs := 60000, nowMs := 5000 }

/-- A running app state with no tasks completed. -/
def sampleApp0 : AppState :=
  { status := SessionPhase.RUNNING none, timerState := sampleTimer,
    tasksCompleted := 0, completedTimeString := "" }

/-- A running app state with one task completed. -/
def sampleApp1 : AppState :=
  { status := SessionPhase.RUNNING none, timerState := sampleTimer,
    tasksCompleted := 1, completedTimeString := "" }

/-- A running app state with task "a1" highlighted and a nonzero completed
count (reachable when a previous summary was dismissed through the modal's
back button, which skips the reset — see the C7 counterexample — and a new
session was then started and a task highlighted). -/
def sampleApp1H : AppState :=
  { status := SessionPhase.RUNNING (some "a1"), timerState := sampleTimer,
    tasksCompleted := 1, completedTimeString := "" }

/-! ## Theorems -/

/-- Claim C1: toggling a task that is present in the cached collection with
status `needsAction` makes its cached status `completed` immediately after
the optimistic step, and a subsequent remote failure restores the cached
collection to exactly the pre-toggle snapshot. -/
theorem toggle_optimistic_then_rollback
    (tasks : List GTask) (taskId : String) (t0 : GTask)
    (hmem : t0 ∈ tasks) (hid : t0.id = taskId)
    (_hst : t0.status = GStatus.needsAction) :
    (∃ t ∈ (onMutate (some tasks) taskId true).1.getD [],
        t.id = taskId ∧ t.status = GStatus.completed) ∧
    (∀ t ∈ (onMutate (some tasks) taskId true).1.getD [],
        t.id = taskId → t.status = GStatus.completed) ∧
    onError (onMutate (some tasks) taskId true).1
        (onMutate (some tasks) taskId true).2 = some tasks := by
  refine ⟨?_, ?_, rfl⟩
  · refine ⟨{ t0 with status := GStatus.completed }, ?_, hid, rfl⟩
    show { t0 with status := GStatus.completed } ∈ optimisticToggle taskId true tasks
    have hmap :
        (fun t => if t.id = taskId then { t with status := toggleStatus true } else t) t0
          = { t0 with status := GStatus.completed } := by
      simp [hid, toggleStatus]
    exact hmap ▸ List.mem_map_of_mem _ hmem
  · intro t ht hidt
    have ht' : t ∈ optimisticToggle taskId true tasks := ht
    obtain ⟨a, _, rfl⟩ := List.mem_map.mp ht'
    by_cases h : a.id = taskId
    · simp [h, toggleStatus]
    · simp only [if_neg h] at hidt ⊢
      exact absurd hidt h

/-- Witness for C1 at a concrete one-task collection. -/
theorem toggle_optimistic_then_rollback_witness :
    (∃ t ∈ (onMutate (some [sampleTaskA]) "a1" true).1.getD [],
        t.id = "a1" ∧ t.status = GStatus.completed) ∧
    (∀ t ∈ (onMutate (some [sampleTaskA]) "a1" true).1.getD [],
        t.id = "a1" → t.status = GStatus.completed) ∧
    onError (onMutate (some [sampleTaskA]) "a1" true).1
        (onMutate (some [sampleTaskA]) "a1" true).2 = some [sampleTaskA] :=
  toggle_optimistic_then_rollback [sampleTaskA] "a1" sampleTaskA
    (List.mem_singleton_self sampleTaskA) rfl rfl

/-- Claim C9: when the cache holds no collection for the key, the optimistic
updater installs an empty collection (the `old = []` default), the snapshot
in the context is `undefined`, and the failure rollback is skipped, leaving
the cache with the empty collection instead of restoring the missing
entry. -/
theorem toggle_missing_collection (taskId : String) (completed : Bool) :
    (onMutate none taskId completed).1 = some [] ∧
    (onMutate none taskId completed).2.prev = none ∧
    onError (onMutate none taskId completed).1
        (onMutate none taskId completed).2 = some [] ∧
    onError (onMutate none taskId completed).1
        (onMutate none taskId completed).2 ≠ none := by
  refine ⟨rfl, rfl, rfl, ?_⟩
  simp [onMutate, onError, optimisticToggle]

/-- Claim C10: the optimistic write only flips the `status` of the task whose
id matches: length and order are preserved, non-matching tasks are unchanged,
and every field of a matching task other than `status` is unchanged. -/
theorem toggle_frame (tasks : List GTask) (taskId : String) (completed : Bool) :
    (optimisticToggle taskId completed tasks).length = tasks.length ∧
    (∀ (i : Nat) (t : GTask), tasks[i]? = some t → t.id ≠ taskId →
      (optimisticToggle taskId completed tasks)[i]? = some t) ∧
    (∀ (i : Nat) (t : GTask), tasks[i]? = some t → t.id = taskId →
      (optimisticToggle taskId completed tasks)[i]? =
        some { id := t.id, title := t.title, status := toggleStatus completed,
               notes := t.notes, due := t.due, updated := t.updated,
               completedAt := t.completedAt }) := by
  refine ⟨List.length_map tasks _, ?_, ?_⟩
  · intro i t ht hne
    simp [optimisticToggle, List.getElem?_map, ht, hne]
  · intro i t ht heq
    simp only [optimisticToggle, List.getElem?_map, ht, Option.map_some',
      heq, if_pos]

/-- Witness for C10 at a concrete two-task collection. -/
theorem toggle_frame_witness :
    (optimisticToggle "a1" true [sampleTaskA, sampleTaskB]).length
      = [sampleTaskA, sampleTaskB].length ∧
    (optimisticToggle "a1" true [sampleTaskA, sampleTaskB])[1]? = some sampleTaskB ∧
    (optimisticToggle "a1" true [sampleTaskA, sampleTaskB])[0]? =
      some { id := sampleTaskA.id, title := sampleTaskA.title,
             status := toggleStatus true, notes := sampleTaskA.notes,
             due := sampleTaskA.due, updated := sampleTaskA.updated,
             completedAt := sampleTaskA.completedAt } :=
  ⟨(toggle_frame [sampleTaskA, sampleTaskB] "a1" true).1,
   (toggle_frame [sampleTaskA, sampleTaskB] "a1" true).2.1 1 sampleTaskB rfl
     (by decide),
   (toggle_frame [sampleTaskA, sampleTaskB] "a1" true).2.2 0 sampleTaskA rfl rfl⟩

/-- Once the latch is set and the timer stays active, later render cycles
never fire again, whatever the remaining values read. -/
theorem countFires_latched (cs : List Check)
    (hall : ∀ c ∈ cs, c.active = true) : countFires true cs = 0 := by
  induction cs with
  | nil => rfl
  | cons c cs ih =>
    have hc : c.active = true := hall c (by simp)
    have hrest : ∀ x ∈ cs, x.active = true := fun x hx => hall x (by simp [hx])
    by_cases h : c.remainingMs > 0 <;>
      simp [countFires, renderCycle, resetLatchEffect, completionEffect, hc, h,
        ih hrest]

/-- Claim C2: with the latch armed at session start, a sequence of checks
whose first observes the expiry condition (active, `remaining.ms ≤ 0`) and
whose rest happen while the timer stays active fires the session-end
transition exactly once; the latch is armed by a start press and, once set,
is cleared only when the timer becomes inactive. -/
theorem timer_end_fires_exactly_once (first : Check) (rest : List Check)
    (hact : first.active = true) (hexp : first.remainingMs ≤ 0)
    (hrest : ∀ c ∈ rest, c.active = true) :
    countFires false (first :: rest) = 1 ∧
    (∀ handled : Bool, startPressLatch false handled = false) ∧
    (∀ (handled : Bool) (c : Check), c.active = true → handled = true →
      (renderCycle handled c).1 = true) ∧
    (∀ (handled : Bool) (c : Check), c.active = false →
      (renderCycle handled c).1 = false) := by
  refine ⟨?_, ?_, ?_, ?_⟩
  · have hnotpos : ¬ first.remainingMs > 0 := by omega
    simp [countFires, renderCycle, resetLatchEffect, completionEffect, hact,
      hnotpos, countFires_latched rest hrest]
  · intro handled
    rfl
  · intro handled c hc hh
    subst hh
    by_cases h : c.remainingMs > 0 <;>
      simp [renderCycle, resetLatchEffect, completionEffect, hc, h]
  · intro handled c hc
    simp [renderCycle, resetLatchEffect, completionEffect, hc]

/-- Witness for C2: five consecutive expiry observations yield one firing. -/
theorem timer_end_fires_exactly_once_witness :
    countFires false
      [⟨true, -1⟩, ⟨true, -2⟩, ⟨true, -3⟩, ⟨true, -4⟩, ⟨true, -5⟩] = 1 :=
  (timer_end_fires_exactly_once ⟨true, -1⟩
    [⟨true, -2⟩, ⟨true, -3⟩, ⟨true, -4⟩, ⟨true, -5⟩]
    rfl (by decide) (by decide)).1

/-- Counterexample to claim C3 as stated: the Task component's "End Session"
choice (shown after checking the highlighted task's checkbox) is a session
end, yet at a concrete running state with `tasksCompleted = 1` it sends the
phase to `IDLE`, not `ACCOMPLISHMENT`, and leaves `completedTimeString`
unwritten. -/
theorem task_prompt_end_ignores_completed_count :
    sampleApp1H.tasksCompleted = 1 ∧
    (taskPromptEndSession sampleApp1H).status = SessionPhase.IDLE ∧
    (taskPromptEndSession sampleApp1H).status ≠ SessionPhase.ACCOMPLISHMENT ∧
    (taskPromptEndSession sampleApp1H).completedTimeString = "" := by
  refine ⟨rfl, rfl, ?_, rfl⟩
  simp [taskPromptEndSession]

/-- Claim C3 as amended: session ends routed through StartButton's
`finishSession` (the end-session prompt, the completion prompt's answers and
natural timer expiry) go to `IDLE` when no tasks were completed and to
`ACCOMPLISHMENT` — recording the timer's elapsed time string at that
instant — when at least one was; the Task component's highlighted-task
"End Session" choice instead goes directly to `IDLE` whatever
`tasksCompleted` holds, recording nothing. -/
theorem sessionEnd_phases (s : AppState) :
    (s.tasksCompleted = 0 → (finishSession s).status = SessionPhase.IDLE) ∧
    (1 ≤ s.tasksCompleted →
      (finishSession s).status = SessionPhase.ACCOMPLISHMENT ∧
      (finishSession s).completedTimeString =
        (timerSnapshot s.timerState.startTime s.timerState.targetTime
          s.timerState.nowMs).elapsed.timeString) ∧
    (taskPromptEndSession s).status = SessionPhase.IDLE ∧
    (taskPromptEndSession s).completedTimeString = s.completedTimeString ∧
    (taskPromptEndSession s).tasksCompleted = s.tasksCompleted := by
  refine ⟨?_, ?_, rfl, rfl, rfl⟩
  · intro h0
    simp [finishSession, h0]
  · intro h1
    have hpos : s.tasksCompleted > 0 := h1
    simp [finishSession, hpos]

/-- Witness for C3 at concrete running states with 0 and 1 completed tasks,
and for the Task-prompt path at the highlighted state. -/
theorem sessionEnd_phases_witness :
    (finishSession sampleApp0).status = SessionPhase.IDLE ∧
    (finishSession sampleApp1).status = SessionPhase.ACCOMPLISHMENT ∧
    (finishSession sampleApp1).completedTimeString =
      (timerSnapshot (some 0) (some 60000) 5000).elapsed.timeString ∧
    (taskPromptEndSession sampleApp1H).tasksCompleted = 1 :=
  ⟨(sessionEnd_phases sampleApp0).1 rfl,
   ((sessionEnd_phases sampleApp1).2.1 (by decide)).1,
   ((sessionEnd_phases sampleApp1).2.1 (by decide)).2,
   (sessionEnd_phases sampleApp1H).2.2.2.2⟩

/-- Claim C4: while the phase is `RUNNING` with highlighted task `b`, a check
toggle on a different task `a` is blocked by the guard: no mutation request
is produced, the cache is unchanged, and no network patch is issued. -/
theorem toggle_noop_when_other_highlighted (b a : String) (hne : a ≠ b)
    (isPending nextChecked : Bool) (cache : TaskCache) :
    handleCheckToggle (SessionPhase.RUNNING (some b)) a isPending nextChecked
      = none ∧
    taskCheckStep (SessionPhase.RUNNING (some b)) a isPending nextChecked cache
      = (cache, false) := by
  have hba : b ≠ a := fun h => hne h.symm
  have hblocked :
      handleCheckToggle (SessionPhase.RUNNING (some b)) a isPending nextChecked
        = none := by
    simp [handleCheckToggle, canToggleCompletion, canShowCheckbox, hba]
  exact ⟨hblocked, by simp [taskCheckStep, hblocked]⟩

/-- Witness for C4 at concrete ids. -/
theorem toggle_noop_when_other_highlighted_witness :
    handleCheckToggle (SessionPhase.RUNNING (some "b2")) "a1" false true
      = none ∧
    taskCheckStep (SessionPhase.RUNNING (some "b2")) "a1" false true
      (some [sampleTaskA]) = (some [sampleTaskA], false) :=
  toggle_noop_when_other_highlighted "b2" "a1" (by decide) false true
    (some [sampleTaskA])

/-- Claim C5: with both timestamps set, the snapshot's `ms` fields hold the
raw unclamped values `now - startTime` and `targetTime - now`, while minutes,
seconds and the `MM:SS` string are computed from the zero-clamped value; the
raw remaining value is non-positive exactly when the target time has been
reached, so zero and negative readings are both readable as expired. -/
theorem snapshot_raw_and_clamped (startMs targetMs nowMs : Int) :
    (timerSnapshot (some startMs) (some targetMs) nowMs).elapsed.ms
      = nowMs - startMs ∧
    (timerSnapshot (some startMs) (some targetMs) nowMs).remaining.ms
      = targetMs - nowMs ∧
    (timerSnapshot (some startMs) (some targetMs) nowMs).elapsed.minutes
      = (max 0 (nowMs - startMs)).toNat / 60000 ∧
    (timerSnapshot (some startMs) (some targetMs) nowMs).elapsed.seconds
      = ((max 0 (nowMs - startMs)).toNat % 60000) / 1000 ∧
    (timerSnapshot (some startMs) (some targetMs) nowMs).elapsed.timeString
      = formatTime ((max 0 (nowMs - startMs)).toNat / 60000)
          (((max 0 (nowMs - startMs)).toNat % 60000) / 1000) ∧
    (timerSnapshot (some startMs) (some targetMs) nowMs).remaining.minutes
      = (max 0 (targetMs - nowMs)).toNat / 60000 ∧
    (timerSnapshot (some startMs) (some targetMs) nowMs).remaining.seconds
      = ((max 0 (targetMs - nowMs)).toNat % 60000) / 1000 ∧
    (timerSnapshot (some startMs) (some targetMs) nowMs).remaining.timeString
      = formatTime ((max 0 (targetMs - nowMs)).toNat / 60000)
          (((max 0 (targetMs - nowMs)).toNat % 60000) / 1000) ∧
    ((timerSnapshot (some startMs) (some targetMs) nowMs).remaining.ms ≤ 0
      ↔ targetMs ≤ nowMs) := by
  refine ⟨rfl, rfl, rfl, rfl, rfl, rfl, rfl, rfl, ?_⟩
  show targetMs - nowMs ≤ 0 ↔ targetMs ≤ nowMs
  omega

/-- Claim C6: the TimerState invariant (`active` iff both timestamps set)
holds initially and after `setTimer` and `clearTimer`; `setTimer` sets both
timestamps and `clearTimer` clears both. -/
theorem timer_invariant_preserved (s : TimerState) (msNow : Int) :
    timerInvariant (initialTimerState msNow) ∧
    timerInvariant (setTimer s msNow) ∧
    timerInvariant (clearTimer s msNow) ∧
    (setTimer s msNow).startTime = some msNow ∧
    (setTimer s msNow).targetTime = some (msNow + s.durationInMs) ∧
    (clearTimer s msNow).startTime = none ∧
    (clearTimer s msNow).targetTime = none := by
  simp [timerInvariant, initialTimerState, setTimer, clearTimer]

/-- Counterexample to claim C7 as stated: dismissing the accomplishment modal
through `onRequestClose` (system back) performs the `ACCOMPLISHMENT → IDLE`
transition without resetting `tasksCompleted`; here the count stays 2. -/
theorem accomplishment_back_dismissal_skips_reset :
    (onRequestClose ⟨SessionPhase.ACCOMPLISHMENT, ⟨2, "00:05"⟩⟩).status
      = SessionPhase.IDLE ∧
    (onRequestClose ⟨SessionPhase.ACCOMPLISHMENT, ⟨2, "00:05"⟩⟩).summary.tasksCompleted
      = 2 :=
  ⟨rfl, rfl⟩

/-- Claim C7 as amended: `tasksCompleted` only ever increases during a
session; the close-button dismissal (`handleClose`) resets it to 0 as it
transitions to `IDLE` (so no reset happens while the summary is visible);
but the modal's back-button dismissal (`onRequestClose`) transitions to
`IDLE` leaving the summary untouched, so not every dismissal resets. -/
theorem tasksCompleted_monotone_and_reset (s : AccomplishmentModel)
    (inc : Nat) :
    s.summary.tasksCompleted
      ≤ (incrementTasksCompleted s.summary inc).tasksCompleted ∧
    (handleClose s).summary.tasksCompleted = 0 ∧
    (handleClose s).status = SessionPhase.IDLE ∧
    (onRequestClose s).status = SessionPhase.IDLE ∧
    (onRequestClose s).summary = s.summary := by
  simp [incrementTasksCompleted, handleClose, resetTasksCompleted,
    onRequestClose]

/-- Claim C8: every remote task-store call fails on a non-2xx response with
the error built from the HTTP status code and the raw response body. -/
theorem api_error_carries_status_and_body {α : Type} (r : HttpResponse)
    (hbad : respOk r = false) (parseJson : String → α) :
    listTaskLists r parseJson
      = Except.error (apiErrorMessage r.status r.body) ∧
    listTasks r parseJson = Except.error (apiErrorMessage r.status r.body) ∧
    addTask r parseJson = Except.error (apiErrorMessage r.status r.body) ∧
    patchTask r parseJson = Except.error (apiErrorMessage r.status r.body) ∧
    deleteTask r parseJson = Except.error (apiErrorMessage r.status r.body) := by
  simp [listTaskLists, listTasks, addTask, patchTask, deleteTask, tasksFetch,
    hbad]

/-- Witness for C8 at a concrete 404 response. -/
theorem api_error_carries_status_and_body_witness :
    listTaskLists ⟨404, "notFound"⟩ (fun s => s)
      = Except.error (apiErrorMessage 404 "notFound") ∧
    apiErrorMessage 404 "notFound" = "Google Tasks API 404: notFound" :=
  ⟨(api_error_carries_status_and_body ⟨404, "notFound"⟩ (by decide)
      (fun s => s)).1,
   rfl⟩

end Todoit
